import Mathlib

/-!
Shallow embedding of the station ranking / risk classification core of the
URT-thaiwater repository: the analysis pipeline of the main App component
(src/unnamed/part_000, the analysis useMemo), the risk card cascade and
divergence flags (src/components/RiskAnalysisCard.tsx), and the geo helpers
(src/utils/geoUtils.ts).

Distances: the TypeScript code computes a distance for each station with
calculateDistance (the haversine formula over IEEE doubles) and afterwards
only ever compares these numbers.  The filter/selector logic is therefore
embedded parametrically: a linearly ordered type K of distance values and a
function d : station → K standing for the partially applied
calculateDistance(userLocation.lat, userLocation.lng, station.lat, station.lng).
The haversine formula itself is embedded over ℝ (calculateDistance below,
idealizing IEEE doubles as reals) and composed with the pipeline where a
claim needs the actual distance function.

Array.prototype.sort with a numeric comparator is a stable sort (ECMAScript
2019); the embedding models each sort call by List.insertionSort (a stable
sort) with the non-strict relation corresponding to the numeric comparator.
-/

/-- Telemetry station record (the Station interface of the repository's types
module, src/unnamed/part_004).  Presentation-only fields (names, station type,
bank levels) are omitted: the verified computations never read them.
Coordinates are ℚ, idealizing the JS numbers. -/
structure Station where
  id : ℤ
  tele_station_lat : ℚ
  tele_station_long : ℚ
deriving DecidableEq

/-- Water level record (WaterLevelData in src/unnamed/part_004); datetime,
msl, storage and geocode/agency fields are presentation-only and omitted. -/
structure WaterLevelData where
  id : ℤ
  situation_level : ℤ
  station : Station
deriving DecidableEq

/-- Rain record (RainData in src/unnamed/part_004); datetime and
geocode/agency fields are presentation-only and omitted. -/
structure RainData where
  id : ℤ
  rain_24h : ℚ
  station : Station
deriving DecidableEq

/-- GeoLocation from src/unnamed/part_004. -/
structure GeoLocation where
  lat : ℚ
  lng : ℚ
deriving DecidableEq

/-- StationWithDistance<T> from src/components/RiskAnalysisCard.tsx, also the
shape of the objects built by the analysis useMemo in src/unnamed/part_000:
a station paired with its computed distance.  K is the distance value type. -/
structure StationWithDistance (α : Type) (K : Type) where
  station : α
  distance : K
deriving DecidableEq

section FirstBest

variable {α : Type}

/-- Spec-side characterization of what a stable sort puts at index 0.
Given a strict preference relation (better y x: y is strictly preferable
to x), firstBest returns the earliest element of the list that no element
is strictly preferred to.  Ties (neither strictly preferred) are resolved
in favor of the earlier element, which is exactly the stable-sort
tie-break rule. -/
def firstBest (better : α → α → Prop) [DecidableRel better] : List α → Option α
  | [] => none
  | a :: l =>
    match firstBest better l with
    | none => some a
    | some b => if better b a then some b else some a

variable (better : α → α → Prop) [DecidableRel better]

theorem firstBest_nil : firstBest better [] = none := rfl

theorem firstBest_cons (a : α) (l : List α) :
    firstBest better (a :: l) =
      match firstBest better l with
      | none => some a
      | some b => if better b a then some b else some a := rfl

theorem firstBest_eq_none_iff (l : List α) : firstBest better l = none ↔ l = [] := by
  cases l with
  | nil => simp [firstBest_nil]
  | cons a t =>
    rw [firstBest_cons]
    cases h : firstBest better t with
    | none => simp
    | some b => by_cases hb : better b a <;> simp [hb]

theorem firstBest_mem : ∀ {l : List α} {x : α}, firstBest better l = some x → x ∈ l := by
  intro l
  induction l with
  | nil => intro x h; simp [firstBest_nil] at h
  | cons a t ih =>
    intro x h
    cases ht : firstBest better t with
    | none => simp only [firstBest_cons, ht] at h; simp at h; simp [h]
    | some b =>
      simp only [firstBest_cons, ht] at h
      by_cases hb : better b a
      · rw [if_pos hb] at h
        simp at h
        subst h
        exact List.mem_cons_of_mem a (ih ht)
      · rw [if_neg hb] at h
        simp at h
        simp [h]

/-- The element returned by firstBest is not strictly beaten by any element
of the list, assuming the strict preference is irreflexive, asymmetric and
negatively transitive (it is in all instantiations used here). -/
theorem firstBest_not_better
    (hirr : ∀ a, ¬ better a a)
    (hasym : ∀ a b, better a b → ¬ better b a)
    (hneg : ∀ a b c, ¬ better a b → ¬ better b c → ¬ better a c) :
    ∀ {l : List α} {x : α}, firstBest better l = some x → ∀ y ∈ l, ¬ better y x := by
  intro l
  induction l with
  | nil => intro x h; simp [firstBest_nil] at h
  | cons a t ih =>
    intro x h y hy
    cases ht : firstBest better t with
    | none =>
      simp only [firstBest_cons, ht] at h
      simp at h
      subst h
      rcases List.mem_cons.mp hy with hya | hyt
      · subst hya; exact hirr y
      · exact absurd ((firstBest_eq_none_iff better t).mp ht ▸ hyt) (List.not_mem_nil y)
    | some b =>
      simp only [firstBest_cons, ht] at h
      by_cases hb : better b a
      · rw [if_pos hb] at h
        simp at h
        subst h
        rcases List.mem_cons.mp hy with hya | hyt
        · subst hya; exact hasym _ _ hb
        · exact ih ht y hyt
      · rw [if_neg hb] at h
        simp at h
        subst h
        rcases List.mem_cons.mp hy with hya | hyt
        · subst hya; exact hirr y
        · exact hneg y b a (ih ht y hyt) hb

/-- Positional characterization: everything strictly before the element
firstBest returns is beaten by some element of the list. -/
theorem firstBest_split :
    ∀ {l : List α} {x : α}, firstBest better l = some x →
      ∃ l₁ l₂, l = l₁ ++ x :: l₂ ∧ ∀ y ∈ l₁, ∃ z ∈ l, better z y := by
  intro l
  induction l with
  | nil => intro x h; simp [firstBest_nil] at h
  | cons a t ih =>
    intro x h
    cases ht : firstBest better t with
    | none =>
      simp only [firstBest_cons, ht] at h
      simp at h
      subst h
      exact ⟨[], t, rfl, by simp⟩
    | some b =>
      simp only [firstBest_cons, ht] at h
      by_cases hb : better b a
      · rw [if_pos hb] at h
        simp at h
        subst h
        obtain ⟨t₁, t₂, hsplit, hbeat⟩ := ih ht
        refine ⟨a :: t₁, t₂, by simp [hsplit], ?_⟩
        intro y hy
        rcases List.mem_cons.mp hy with hya | hyt
        · subst hya
          exact ⟨b, List.mem_cons_of_mem y (firstBest_mem better ht), hb⟩
        · obtain ⟨z, hz, hzy⟩ := hbeat y hyt
          exact ⟨z, List.mem_cons_of_mem a hz, hzy⟩
      · rw [if_neg hb] at h
        simp at h
        subst h
        exact ⟨[], t, rfl, by simp⟩

theorem head?_orderedInsert (le : α → α → Prop) [DecidableRel le] (a : α) (l : List α) :
    (List.orderedInsert le a l).head? =
      some (match l.head? with
        | none => a
        | some b => if le a b then a else b) := by
  cases l with
  | nil => rfl
  | cons b t =>
    simp only [List.orderedInsert]
    by_cases h : le a b <;> simp [h]

/-- Index 0 of a stable sort by the non-strict relation le equals firstBest
for the corresponding strict preference, provided le a b ↔ ¬ better b a. -/
theorem head?_insertionSort (le : α → α → Prop) [DecidableRel le]
    (hle : ∀ a b, le a b ↔ ¬ better b a) (l : List α) :
    (List.insertionSort le l).head? = firstBest better l := by
  induction l with
  | nil => rfl
  | cons a t ih =>
    rw [List.insertionSort, head?_orderedInsert, firstBest_cons, ← ih]
    cases hh : (List.insertionSort le t).head? with
    | none => rfl
    | some b =>
      simp only
      by_cases hba : better b a
      · rw [if_neg (fun h => (hle a b).mp h hba), if_pos hba]
      · rw [if_pos ((hle a b).mpr hba), if_neg hba]

end FirstBest

section Keep

variable {α : Type} (better : α → α → Prop) [DecidableRel better]

/-- One step of a running-minimum scan: keep the current element x unless the
later element y is strictly preferable. -/
def keep (x y : α) : α := if better y x then y else x

theorem keep_assoc
    (htrans : ∀ a b c, better a b → better b c → better a c)
    (hneg : ∀ a b c, ¬ better a b → ¬ better b c → ¬ better a c)
    (x y z : α) :
    keep better (keep better x y) z = keep better x (keep better y z) := by
  by_cases hyx : better y x <;> by_cases hzy : better z y
  · have hzx : better z x := htrans z y x hzy hyx
    simp [keep, hyx, hzy, hzx]
  · simp [keep, hyx, hzy]
  · simp [keep, hyx, hzy]
  · have hzx : ¬ better z x := hneg z y x hzy hyx
    simp [keep, hyx, hzy, hzx]

/-- A left fold of keep computes firstBest. -/
theorem foldl_keep
    (htrans : ∀ a b c, better a b → better b c → better a c)
    (hneg : ∀ a b c, ¬ better a b → ¬ better b c → ¬ better a c) :
    ∀ (l : List α) (c : α),
      l.foldl (keep better) c = (firstBest better l).elim c (keep better c) := by
  intro l
  induction l with
  | nil => intro c; rfl
  | cons s t ih =>
    intro c
    rw [List.foldl_cons, ih (keep better c s)]
    cases ht : firstBest better t with
    | none => simp only [firstBest_cons, ht, Option.elim]
    | some b =>
      simp only [firstBest_cons, ht, Option.elim]
      rw [keep_assoc better htrans hneg]
      by_cases hbs : better b s <;> simp [keep, hbs]

end Keep

section FindNearest

variable {K : Type} [LinearOrder K] {α : Type}

instance (d : α → K) : DecidableRel (fun y x : α => d y < d x) :=
  fun y x => inferInstanceAs (Decidable (d y < d x))

theorem dLT_trans (d : α → K) :
    ∀ a b c : α, d a < d b → d b < d c → d a < d c :=
  fun _ _ _ h1 h2 => lt_trans h1 h2

theorem dLT_neg_trans (d : α → K) :
    ∀ a b c : α, ¬ d a < d b → ¬ d b < d c → ¬ d a < d c :=
  fun _ _ _ h1 h2 => not_lt.mpr (le_trans (not_lt.mp h2) (not_lt.mp h1))

/-- The findNearestStation / findNearestRainStation scan from
src/utils/geoUtils.ts: walk the whole station list with a running minimum,
starting from minDistance = Infinity (modeled as ⊤ of WithTop K) and
nearest = null, updating only on strictly smaller distance.  The function d
abstracts calculateDistance(userLoc.lat, userLoc.lng, station.lat, station.lng). -/
def findNearest (d : α → K) (stations : List α) : Option α × WithTop K :=
  stations.foldl
    (fun acc s => if (d s : WithTop K) < acc.2 then (some s, (d s : WithTop K)) else acc)
    (none, (⊤ : WithTop K))

/-- Exported findNearestStation of src/utils/geoUtils.ts. -/
def findNearestStation (d : WaterLevelData → K) (stations : List WaterLevelData) :
    Option WaterLevelData × WithTop K :=
  findNearest d stations

/-- Exported findNearestRainStation of src/utils/geoUtils.ts (same loop over
RainData). -/
def findNearestRainStation (d : RainData → K) (stations : List RainData) :
    Option RainData × WithTop K :=
  findNearest d stations

theorem findNearest_aux (d : α → K) :
    ∀ (l : List α) (c : α),
      l.foldl
        (fun acc s => if (d s : WithTop K) < acc.2 then (some s, (d s : WithTop K)) else acc)
        (some c, (d c : WithTop K))
      = (some (l.foldl (keep (fun y x : α => d y < d x)) c),
         (d (l.foldl (keep (fun y x : α => d y < d x)) c) : WithTop K)) := by
  intro l
  induction l with
  | nil => intro c; rfl
  | cons s t ih =>
    intro c
    rw [List.foldl_cons, List.foldl_cons]
    have hstep :
        (if (d s : WithTop K) < ((d c : K) : WithTop K)
          then (some s, (d s : WithTop K)) else (some c, (d c : WithTop K)))
        = (some (keep (fun y x : α => d y < d x) c s),
           (d (keep (fun y x : α => d y < d x) c s) : WithTop K)) := by
      by_cases h : d s < d c
      · rw [if_pos (WithTop.coe_lt_coe.mpr h)]
        simp [keep, h]
      · rw [if_neg (fun hc => h (WithTop.coe_lt_coe.mp hc))]
        simp [keep, h]
    rw [hstep, ih]

/-- The geoUtils scan equals firstBest of the strict smaller-distance
preference, paired with that station's distance (⊤ on the empty list). -/
theorem findNearest_eq (d : α → K) (l : List α) :
    findNearest d l =
      ((firstBest (fun y x : α => d y < d x) l),
       (firstBest (fun y x : α => d y < d x) l).elim ⊤ (fun s => (d s : WithTop K))) := by
  cases l with
  | nil => rfl
  | cons s t =>
    unfold findNearest
    rw [List.foldl_cons]
    have h0 : (if (d s : WithTop K) < (⊤ : WithTop K)
        then (some s, (d s : WithTop K)) else ((none : Option α), (⊤ : WithTop K)))
        = (some s, (d s : WithTop K)) := by
      rw [if_pos (WithTop.coe_lt_top _)]
    rw [h0, findNearest_aux d t s,
      foldl_keep _ (dLT_trans d) (dLT_neg_trans d) t s]
    cases ht : firstBest (fun y x : α => d y < d x) t with
    | none => simp only [firstBest_cons, ht, Option.elim]
    | some b =>
      simp only [firstBest_cons, ht, Option.elim]
      by_cases hbs : d b < d s <;> simp [keep, hbs]

end FindNearest

section Comparators

variable {K : Type} [LinearOrder K] {α : Type}

/-- The ascending-distance comparator (a, b) => a.distance - b.distance used
to sort waterInRadius and rainInRadius in src/unnamed/part_000, read as the
non-strict total preorder the stable sort realizes. -/
def distLE (a b : StationWithDistance α K) : Prop :=
  a.distance ≤ b.distance

instance : DecidableRel (distLE (α := α) (K := K)) :=
  fun a b => decidable_of_iff (a.distance ≤ b.distance) Iff.rfl

instance : IsTotal (StationWithDistance α K) distLE :=
  ⟨fun a b => le_total a.distance b.distance⟩

instance : IsTrans (StationWithDistance α K) distLE :=
  ⟨fun _ _ _ h1 h2 => le_trans h1 h2⟩

/-- Strict preference corresponding to distLE: strictly smaller distance. -/
def distBtr (y x : StationWithDistance α K) : Prop :=
  y.distance < x.distance

instance : DecidableRel (distBtr (α := α) (K := K)) :=
  fun a b => decidable_of_iff (a.distance < b.distance) Iff.rfl

theorem distLE_iff (a b : StationWithDistance α K) : distLE a b ↔ ¬ distBtr b a :=
  not_lt.symm

theorem distBtr_trans :
    ∀ a b c : StationWithDistance α K, distBtr a b → distBtr b c → distBtr a c :=
  fun _ _ _ h1 h2 => lt_trans h1 h2

theorem distBtr_neg_trans :
    ∀ a b c : StationWithDistance α K, ¬ distBtr a b → ¬ distBtr b c → ¬ distBtr a c :=
  fun _ _ _ h1 h2 => not_lt.mpr (le_trans (not_lt.mp h2) (not_lt.mp h1))

theorem distBtr_irrefl : ∀ a : StationWithDistance α K, ¬ distBtr a a :=
  fun _ => lt_irrefl _

theorem distBtr_asym :
    ∀ a b : StationWithDistance α K, distBtr a b → ¬ distBtr b a :=
  fun _ _ h => lt_asymm h

/-- The sortedWaterRisk comparator of src/unnamed/part_000:
(a, b) => b.station.situation_level - a.station.situation_level when the
levels differ (descending severity), otherwise a.distance - b.distance
(ascending distance). -/
def waterRiskLE (a b : StationWithDistance WaterLevelData K) : Prop :=
  b.station.situation_level < a.station.situation_level ∨
    (a.station.situation_level = b.station.situation_level ∧ a.distance ≤ b.distance)

instance : DecidableRel (waterRiskLE (K := K)) :=
  fun a b => decidable_of_iff
    (b.station.situation_level < a.station.situation_level ∨
      (a.station.situation_level = b.station.situation_level ∧ a.distance ≤ b.distance))
    Iff.rfl

/-- Strict preference corresponding to waterRiskLE: strictly higher severity,
or equal severity and strictly smaller distance. -/
def waterRiskBtr (y x : StationWithDistance WaterLevelData K) : Prop :=
  x.station.situation_level < y.station.situation_level ∨
    (y.station.situation_level = x.station.situation_level ∧ y.distance < x.distance)

instance : DecidableRel (waterRiskBtr (K := K)) :=
  fun y x => decidable_of_iff
    (x.station.situation_level < y.station.situation_level ∨
      (y.station.situation_level = x.station.situation_level ∧ y.distance < x.distance))
    Iff.rfl

theorem waterRiskLE_iff (a b : StationWithDistance WaterLevelData K) :
    waterRiskLE a b ↔ ¬ waterRiskBtr b a := by
  unfold waterRiskLE waterRiskBtr
  rcases lt_trichotomy a.station.situation_level b.station.situation_level with h | h | h
  · have h1 : ¬ b.station.situation_level < a.station.situation_level := by omega
    have h2 : ¬ a.station.situation_level = b.station.situation_level := by omega
    simp [h, h1, h2]
  · have h1 : ¬ b.station.situation_level < a.station.situation_level := by omega
    have h2 : ¬ a.station.situation_level < b.station.situation_level := by omega
    simp [h, h1, h2, not_lt]
  · have h1 : ¬ a.station.situation_level < b.station.situation_level := by omega
    have h2 : ¬ b.station.situation_level = a.station.situation_level := by omega
    simp [h, h1, h2]

theorem waterRiskLE_trans :
    ∀ a b c : StationWithDistance WaterLevelData K,
      waterRiskLE a b → waterRiskLE b c → waterRiskLE a c := by
  rintro a b c (h1 | ⟨h1e, h1d⟩) (h2 | ⟨h2e, h2d⟩)
  · exact Or.inl (by omega)
  · exact Or.inl (by omega)
  · exact Or.inl (by omega)
  · exact Or.inr ⟨by omega, le_trans h1d h2d⟩

theorem waterRiskBtr_trans :
    ∀ a b c : StationWithDistance WaterLevelData K,
      waterRiskBtr a b → waterRiskBtr b c → waterRiskBtr a c := by
  rintro a b c (h1 | ⟨h1e, h1d⟩) (h2 | ⟨h2e, h2d⟩)
  · exact Or.inl (by omega)
  · exact Or.inl (by omega)
  · exact Or.inl (by omega)
  · exact Or.inr ⟨by omega, lt_trans h1d h2d⟩

theorem waterRiskBtr_neg_trans :
    ∀ a b c : StationWithDistance WaterLevelData K,
      ¬ waterRiskBtr a b → ¬ waterRiskBtr b c → ¬ waterRiskBtr a c :=
  fun a b c h1 h2 =>
    (waterRiskLE_iff c a).mp
      (waterRiskLE_trans c b a ((waterRiskLE_iff c b).mpr h2) ((waterRiskLE_iff b a).mpr h1))

theorem waterRiskBtr_irrefl : ∀ a : StationWithDistance WaterLevelData K, ¬ waterRiskBtr a a := by
  rintro a (h | ⟨_, h⟩)
  · omega
  · exact lt_irrefl _ h

theorem waterRiskBtr_asym :
    ∀ a b : StationWithDistance WaterLevelData K, waterRiskBtr a b → ¬ waterRiskBtr b a := by
  rintro a b (h1 | ⟨h1e, h1d⟩) (h2 | ⟨h2e, h2d⟩)
  · omega
  · omega
  · omega
  · exact lt_asymm h1d h2d

/-- The sortedRainRisk comparator of src/unnamed/part_000:
(a, b) => b.station.rain_24h - a.station.rain_24h (descending rainfall,
no explicit tie-break). -/
def rainRiskLE (a b : StationWithDistance RainData K) : Prop :=
  b.station.rain_24h ≤ a.station.rain_24h

instance : DecidableRel (rainRiskLE (K := K)) :=
  fun a b => decidable_of_iff (b.station.rain_24h ≤ a.station.rain_24h) Iff.rfl

/-- Strict preference corresponding to rainRiskLE: strictly more rainfall. -/
def rainRiskBtr (y x : StationWithDistance RainData K) : Prop :=
  x.station.rain_24h < y.station.rain_24h

instance : DecidableRel (rainRiskBtr (K := K)) :=
  fun y x => decidable_of_iff (x.station.rain_24h < y.station.rain_24h) Iff.rfl

theorem rainRiskLE_iff (a b : StationWithDistance RainData K) :
    rainRiskLE a b ↔ ¬ rainRiskBtr b a :=
  not_lt.symm

theorem rainRiskBtr_trans :
    ∀ a b c : StationWithDistance RainData K,
      rainRiskBtr a b → rainRiskBtr b c → rainRiskBtr a c :=
  fun _ _ _ h1 h2 => lt_trans h2 h1

theorem rainRiskBtr_neg_trans :
    ∀ a b c : StationWithDistance RainData K,
      ¬ rainRiskBtr a b → ¬ rainRiskBtr b c → ¬ rainRiskBtr a c :=
  fun _ _ _ h1 h2 => not_lt.mpr (le_trans (not_lt.mp h1) (not_lt.mp h2))

theorem rainRiskBtr_irrefl : ∀ a : StationWithDistance RainData K, ¬ rainRiskBtr a a :=
  fun _ => lt_irrefl _

theorem rainRiskBtr_asym :
    ∀ a b : StationWithDistance RainData K, rainRiskBtr a b → ¬ rainRiskBtr b a :=
  fun _ _ h => lt_asymm h

end Comparators

section Pipeline

variable {K : Type} [LinearOrder K] {α : Type}

/-- Radius filter of the analysis useMemo in src/unnamed/part_000:
allStations.map(s => (station: s, distance: d s)).filter(x => x.distance <= radius).
The same expression is used for both kinds (waterInRadius / rainInRadius);
d abstracts calculateDistance(userLocation.lat, userLocation.lng, lat, long). -/
def inRadius (d : α → K) (radius : K) (stations : List α) :
    List (StationWithDistance α K) :=
  (stations.map fun s => ⟨s, d s⟩).filter fun x => x.distance ≤ radius

/-- waterInRadius of src/unnamed/part_000. -/
def waterInRadius (dW : WaterLevelData → K) (radius : K) (allStations : List WaterLevelData) :
    List (StationWithDistance WaterLevelData K) :=
  inRadius dW radius allStations

/-- rainInRadius of src/unnamed/part_000. -/
def rainInRadius (dR : RainData → K) (radius : K) (allRainStations : List RainData) :
    List (StationWithDistance RainData K) :=
  inRadius dR radius allRainStations

/-- The in-place sort arr.sort((a, b) => a.distance - b.distance) applied to
waterInRadius and rainInRadius in src/unnamed/part_000 (stable, ascending
distance). -/
def byDistance (l : List (StationWithDistance α K)) :
    List (StationWithDistance α K) :=
  List.insertionSort distLE l

/-- nearestWater / nearestRain selection: index 0 of the distance-sorted
filtered array, null (none) when it is empty (the pattern arr[0] || null). -/
def nearestSel (l : List (StationWithDistance α K)) :
    Option (StationWithDistance α K) :=
  (byDistance l).head?

/-- worstWater selection of src/unnamed/part_000: sortedWaterRisk is a copy
of the (already distance-sorted, in place) waterInRadius array, stably
re-sorted by descending situation_level with ascending-distance tie-break;
the selector takes index 0 (or null). -/
def worstWaterSel (l : List (StationWithDistance WaterLevelData K)) :
    Option (StationWithDistance WaterLevelData K) :=
  (List.insertionSort waterRiskLE (byDistance l)).head?

/-- worstRain selection of src/unnamed/part_000: sortedRainRisk is a copy of
the (already distance-sorted, in place) rainInRadius array, stably re-sorted
by descending rain_24h only; the selector takes index 0 (or null). -/
def worstRainSel (l : List (StationWithDistance RainData K)) :
    Option (StationWithDistance RainData K) :=
  (List.insertionSort rainRiskLE (byDistance l)).head?

/-- nearestWater of the analysis useMemo. -/
def nearestWater (dW : WaterLevelData → K) (radius : K) (allStations : List WaterLevelData) :
    Option (StationWithDistance WaterLevelData K) :=
  nearestSel (waterInRadius dW radius allStations)

/-- nearestRain of the analysis useMemo. -/
def nearestRain (dR : RainData → K) (radius : K) (allRainStations : List RainData) :
    Option (StationWithDistance RainData K) :=
  nearestSel (rainInRadius dR radius allRainStations)

/-- worstWater of the analysis useMemo. -/
def worstWater (dW : WaterLevelData → K) (radius : K) (allStations : List WaterLevelData) :
    Option (StationWithDistance WaterLevelData K) :=
  worstWaterSel (waterInRadius dW radius allStations)

/-- worstRain of the analysis useMemo. -/
def worstRain (dR : RainData → K) (radius : K) (allRainStations : List RainData) :
    Option (StationWithDistance RainData K) :=
  worstRainSel (rainInRadius dR radius allRainStations)

end Pipeline

/-- Overall risk category computed by RiskAnalysisCard
(src/components/RiskAnalysisCard.tsx).  Constructors follow the spec's enum;
they correspond one-to-one to the riskTitle strings the component renders:
INSUFFICIENT_DATA = the early-return card shown when nearestWater is null,
HIGH_WATER = the criticalWaterLevel === 5 branch, WATCH = the === 4 branch,
HIGH_RAIN_FLASH_FLOOD = the heavyRainAmount >= 90 branch, HEAVY_RAIN = the
isRainRisk (>= 35) branch, LOW = the default initial assignment. -/
inductive RiskCategory where
  | LOW
  | WATCH
  | HIGH_WATER
  | HIGH_RAIN_FLASH_FLOOD
  | HEAVY_RAIN
  | INSUFFICIENT_DATA
deriving DecidableEq

section Classifier

variable {K : Type} [LinearOrder K]

/-- criticalWaterLevel of RiskAnalysisCard line 37:
worstWater?.station.situation_level || 0.  For a number x the JS expression
x || 0 equals x when x is nonzero and 0 when x is 0 or the optional chain
produced undefined, which is exactly this match. -/
def criticalWaterLevel (worstW : Option (StationWithDistance WaterLevelData K)) : ℤ :=
  match worstW with
  | some w => w.station.situation_level
  | none => 0

/-- heavyRainAmount of RiskAnalysisCard line 38:
worstRain?.station.rain_24h || 0 (same reading of || 0 on numbers). -/
def heavyRainAmount (worstR : Option (StationWithDistance RainData K)) : ℚ :=
  match worstR with
  | some r => r.station.rain_24h
  | none => 0

/-- The classification cascade of RiskAnalysisCard (lines 27-68): early
return when nearestWater is null, otherwise the if/else chain on
criticalWaterLevel and heavyRainAmount. -/
def classifyRisk (nearestW worstW : Option (StationWithDistance WaterLevelData K))
    (worstR : Option (StationWithDistance RainData K)) : RiskCategory :=
  match nearestW with
  | none => RiskCategory.INSUFFICIENT_DATA
  | some _ =>
    if criticalWaterLevel worstW = 5 then RiskCategory.HIGH_WATER
    else if criticalWaterLevel worstW = 4 then RiskCategory.WATCH
    else if 90 ≤ heavyRainAmount worstR then RiskCategory.HIGH_RAIN_FLASH_FLOOD
    else if 35 ≤ heavyRainAmount worstR then RiskCategory.HEAVY_RAIN
    else RiskCategory.LOW

/-- End-to-end category: the four selector outputs of the analysis useMemo
fed into the RiskAnalysisCard cascade. -/
def overallRisk (dW : WaterLevelData → K) (dR : RainData → K) (radius : K)
    (allStations : List WaterLevelData) (allRainStations : List RainData) : RiskCategory :=
  classifyRisk (nearestWater dW radius allStations) (worstWater dW radius allStations)
    (worstRain dR radius allRainStations)

/-- showWaterWarning of RiskAnalysisCard line 71: worstWater && nearestWater
&& ids differ && worst level strictly above nearest level && worst level >= 4. -/
def showWaterWarning (worstW nearestW : Option (StationWithDistance WaterLevelData K)) :
    Prop :=
  match worstW, nearestW with
  | some w, some n =>
      w.station.id ≠ n.station.id ∧
      n.station.situation_level < w.station.situation_level ∧
      4 ≤ w.station.situation_level
  | _, _ => False

/-- showRainWarning of RiskAnalysisCard line 72: worstRain && nearestRain
&& ids differ && worst rain > 35 && worst rain strictly above nearest rain. -/
def showRainWarning (worstR nearestR : Option (StationWithDistance RainData K)) :
    Prop :=
  match worstR, nearestR with
  | some w, some n =>
      w.station.id ≠ n.station.id ∧
      35 < w.station.rain_24h ∧
      n.station.rain_24h < w.station.rain_24h
  | _, _ => False

/-- findNearbyRainStations of src/utils/geoUtils.ts: map each station to its
distance, keep those within radiusKm (the JS default argument is 50), sort
ascending by distance, and slice the first 5. -/
def findNearbyRainStations (d : RainData → K) (radiusKm : K) (stations : List RainData) :
    List (StationWithDistance RainData K) :=
  (List.insertionSort distLE
    ((stations.map fun s => ⟨s, d s⟩).filter fun x => x.distance ≤ radiusKm)).take 5

end Classifier

section Geo

/-- deg2rad of src/utils/geoUtils.ts. -/
noncomputable def deg2rad (deg : ℝ) : ℝ := deg * (Real.pi / 180)

/-- Math.atan2 over the reals (the IEEE special values NaN and signed zero
have no counterpart in ℝ; on the arguments produced by calculateDistance
only the first and third branches are ever taken). -/
noncomputable def atan2 (y x : ℝ) : ℝ :=
  if 0 < x then Real.arctan (y / x)
  else if x < 0 then
    if 0 ≤ y then Real.arctan (y / x) + Real.pi else Real.arctan (y / x) - Real.pi
  else if 0 < y then Real.pi / 2
  else if y < 0 then -(Real.pi / 2)
  else 0

/-- The intermediate value a of calculateDistance in src/utils/geoUtils.ts:
sin(dLat/2)^2 + cos(lat1) * cos(lat2) * sin(dLon/2)^2, all in radians. -/
noncomputable def havA (lat1 lon1 lat2 lon2 : ℝ) : ℝ :=
  Real.sin (deg2rad (lat2 - lat1) / 2) * Real.sin (deg2rad (lat2 - lat1) / 2) +
    Real.cos (deg2rad lat1) * Real.cos (deg2rad lat2) *
      Real.sin (deg2rad (lon2 - lon1) / 2) * Real.sin (deg2rad (lon2 - lon1) / 2)

/-- calculateDistance of src/utils/geoUtils.ts (haversine, Earth radius
R = 6371 km): d = R * c with c = 2 * atan2(sqrt(a), sqrt(1 - a)).
Exact-real model of the double-precision code: Real.sqrt returns 0 on
negative arguments, so the NaN that Math.sqrt produces when rounding pushes
a above 1 has no counterpart here; rounding behavior is outside this model
(see C8_antipodal_boundary for the input where the program hits that path). -/
noncomputable def calculateDistance (lat1 lon1 lat2 lon2 : ℝ) : ℝ :=
  6371 * (2 * atan2 (Real.sqrt (havA lat1 lon1 lat2 lon2))
    (Real.sqrt (1 - havA lat1 lon1 lat2 lon2)))

theorem havA_comm (lat1 lon1 lat2 lon2 : ℝ) :
    havA lat1 lon1 lat2 lon2 = havA lat2 lon2 lat1 lon1 := by
  unfold havA deg2rad
  have h1 : (lat1 - lat2) * (Real.pi / 180) / 2 = -((lat2 - lat1) * (Real.pi / 180) / 2) := by
    ring
  have h2 : (lon1 - lon2) * (Real.pi / 180) / 2 = -((lon2 - lon1) * (Real.pi / 180) / 2) := by
    ring
  rw [h1, h2, Real.sin_neg, Real.sin_neg]
  ring

theorem havA_self (lat lon : ℝ) : havA lat lon lat lon = 0 := by
  simp [havA, deg2rad, sub_self]

theorem atan2_zero_one : atan2 0 1 = 0 := by
  unfold atan2
  rw [if_pos one_pos]
  simp [Real.arctan_zero]

theorem calculateDistance_comm (lat1 lon1 lat2 lon2 : ℝ) :
    calculateDistance lat1 lon1 lat2 lon2 = calculateDistance lat2 lon2 lat1 lon1 := by
  unfold calculateDistance
  rw [havA_comm]

theorem calculateDistance_self (lat lon : ℝ) : calculateDistance lat lon lat lon = 0 := by
  unfold calculateDistance
  rw [havA_self]
  simp [atan2_zero_one]

theorem sin_sq_half_eq (x : ℝ) : Real.sin (x / 2) ^ 2 = (1 - Real.cos x) / 2 := by
  have h1 := Real.sin_sq (x / 2)
  have h2 := Real.cos_sq (x / 2)
  have h3 : 2 * (x / 2) = x := by ring
  rw [h1, h2, h3]
  ring

theorem cos_deg2rad_nonneg {lat : ℝ} (h : |lat| ≤ 90) : 0 ≤ Real.cos (deg2rad lat) := by
  obtain ⟨hl, hr⟩ := abs_le.mp h
  have hp := Real.pi_pos
  apply Real.cos_nonneg_of_mem_Icc
  rw [Set.mem_Icc]
  unfold deg2rad
  constructor
  · nlinarith
  · nlinarith

/-- For latitudes in the valid range the haversine intermediate value is
nonnegative: the argument of the first square root is well inside the
domain where Math.sqrt returns a number, not NaN. -/
theorem havA_nonneg {lat1 lat2 : ℝ} (lon1 lon2 : ℝ)
    (h1 : |lat1| ≤ 90) (h2 : |lat2| ≤ 90) :
    0 ≤ havA lat1 lon1 lat2 lon2 := by
  unfold havA
  have hc1 := cos_deg2rad_nonneg h1
  have hc2 := cos_deg2rad_nonneg h2
  nlinarith [mul_self_nonneg (Real.sin (deg2rad (lat2 - lat1) / 2)),
    mul_self_nonneg (Real.sin (deg2rad (lon2 - lon1) / 2)),
    mul_nonneg hc1 hc2]

/-- For latitudes in the valid range the haversine intermediate value is at
most 1: the argument 1 - a of the second square root is nonnegative, so
Math.sqrt(1 - a) cannot be NaN either. -/
theorem havA_le_one {lat1 lat2 : ℝ} (lon1 lon2 : ℝ)
    (h1 : |lat1| ≤ 90) (h2 : |lat2| ≤ 90) :
    havA lat1 lon1 lat2 lon2 ≤ 1 := by
  unfold havA
  have hsub : deg2rad (lat2 - lat1) = deg2rad lat2 - deg2rad lat1 := by
    unfold deg2rad; ring
  rw [hsub]
  have hhalf := sin_sq_half_eq (deg2rad lat2 - deg2rad lat1)
  have hcos_sub := Real.cos_sub (deg2rad lat2) (deg2rad lat1)
  have hcos_add := Real.cos_add (deg2rad lat2) (deg2rad lat1)
  have hbound := Real.cos_le_one (deg2rad lat2 + deg2rad lat1)
  have hs2 := Real.sin_sq_le_one (deg2rad (lon2 - lon1) / 2)
  have hc1 := cos_deg2rad_nonneg h1
  have hc2 := cos_deg2rad_nonneg h2
  have hcc : 0 ≤ Real.cos (deg2rad lat1) * Real.cos (deg2rad lat2) := mul_nonneg hc1 hc2
  nlinarith [hhalf, hcos_sub, hcos_add, hbound, hs2, hcc,
    mul_self_nonneg (Real.sin (deg2rad (lon2 - lon1) / 2))]

end Geo

section PipelineLemmas

variable {K : Type} [LinearOrder K] {α : Type}

theorem mem_inRadius (d : α → K) (radius : K) (stations : List α)
    (x : StationWithDistance α K) :
    x ∈ inRadius d radius stations ↔
      x.station ∈ stations ∧ x.distance = d x.station ∧ x.distance ≤ radius := by
  unfold inRadius
  rw [List.mem_filter, List.mem_map]
  constructor
  · rintro ⟨⟨s, hs, rfl⟩, hp⟩
    exact ⟨hs, rfl, by simpa using hp⟩
  · rintro ⟨hs, hd, hr⟩
    refine ⟨⟨x.station, hs, ?_⟩, by simpa using hr⟩
    cases x with
    | mk s q => simp only at hd; rw [hd]

theorem mem_byDistance (l : List (StationWithDistance α K))
    (x : StationWithDistance α K) : x ∈ byDistance l ↔ x ∈ l :=
  List.mem_insertionSort distLE

theorem nearestSel_eq_firstBest (l : List (StationWithDistance α K)) :
    nearestSel l = firstBest distBtr l := by
  unfold nearestSel byDistance
  exact head?_insertionSort distBtr distLE distLE_iff l

theorem worstWaterSel_eq_firstBest (l : List (StationWithDistance WaterLevelData K)) :
    worstWaterSel l = firstBest waterRiskBtr (byDistance l) := by
  unfold worstWaterSel
  exact head?_insertionSort waterRiskBtr waterRiskLE waterRiskLE_iff (byDistance l)

theorem worstRainSel_eq_firstBest (l : List (StationWithDistance RainData K)) :
    worstRainSel l = firstBest rainRiskBtr (byDistance l) := by
  unfold worstRainSel
  exact head?_insertionSort rainRiskBtr rainRiskLE rainRiskLE_iff (byDistance l)

theorem byDistance_sorted (l : List (StationWithDistance α K)) :
    List.Sorted distLE (byDistance l) :=
  List.sorted_insertionSort distLE l

end PipelineLemmas

/-- C2: for every reference point (abstracted by the per-station distance
function d), station sequence, and radius, a station is in the output of the
radius filter iff its distance is at most the radius (inclusive boundary);
the output is a sublist of the distance-annotated input (hence a stable
filter preserving relative order); and an empty result (no qualifier, or
empty input) is an ordinary empty list, never an error. -/
theorem C2_radius_filter {K : Type} [LinearOrder K] {α : Type}
    (d : α → K) (radius : K) (stations : List α) :
    (∀ x : StationWithDistance α K,
      x ∈ inRadius d radius stations ↔
        x.station ∈ stations ∧ x.distance = d x.station ∧ x.distance ≤ radius)
    ∧ (∀ s : α,
        (∃ x ∈ inRadius d radius stations, x.station = s) ↔ s ∈ stations ∧ d s ≤ radius)
    ∧ List.Sublist (inRadius d radius stations) (stations.map fun s => ⟨s, d s⟩)
    ∧ ((∀ s ∈ stations, ¬ d s ≤ radius) → inRadius d radius stations = [])
    ∧ inRadius d radius ([] : List α) = [] := by
  refine ⟨mem_inRadius d radius stations, ?_, ?_, ?_, rfl⟩
  · intro s
    constructor
    · rintro ⟨x, hx, rfl⟩
      obtain ⟨hs, hd, hr⟩ := (mem_inRadius d radius stations x).mp hx
      exact ⟨hs, hd ▸ hr⟩
    · rintro ⟨hs, hr⟩
      exact ⟨⟨s, d s⟩, (mem_inRadius d radius stations _).mpr ⟨hs, rfl, hr⟩, rfl⟩
  · exact List.filter_sublist _
  · intro hall
    unfold inRadius
    rw [List.filter_eq_nil_iff]
    rintro x hx
    obtain ⟨s, hs, rfl⟩ := List.mem_map.mp hx
    simpa using hall s hs

/-- C2 witness: a concrete instance of the empty-result conjunct. -/
theorem C2_witness :
    inRadius (fun _ : WaterLevelData => (100 : ℚ)) 10 [⟨1, 3, ⟨1, 0, 0⟩⟩] = [] :=
  (C2_radius_filter (fun _ : WaterLevelData => (100 : ℚ)) 10 [⟨1, 3, ⟨1, 0, 0⟩⟩]).2.2.2.1
    (by decide)

/-- C3: the nearest selector (index 0 of the stable ascending-distance sort,
null on empty) equals firstBest of the strictly-smaller-distance preference:
it returns the minimum-distance element, with ties resolved in favor of the
element appearing earlier in the input sequence, and none on the empty
input as a normal outcome. -/
theorem C3_nearest_selector {K : Type} [LinearOrder K] {α : Type}
    (l : List (StationWithDistance α K)) :
    nearestSel l = firstBest distBtr l
    ∧ nearestSel ([] : List (StationWithDistance α K)) = none
    ∧ (nearestSel l = none ↔ l = [])
    ∧ ∀ x, nearestSel l = some x → x ∈ l ∧ ∀ y ∈ l, x.distance ≤ y.distance := by
  refine ⟨nearestSel_eq_firstBest l, rfl, ?_, ?_⟩
  · rw [nearestSel_eq_firstBest l]
    exact firstBest_eq_none_iff distBtr l
  · intro x hx
    rw [nearestSel_eq_firstBest l] at hx
    refine ⟨firstBest_mem distBtr hx, ?_⟩
    intro y hy
    exact not_lt.mp
      (firstBest_not_better distBtr distBtr_irrefl distBtr_asym distBtr_neg_trans hx y hy)

/-- C3 witness: two stations at equal distance 2; the selector returns the
one appearing earlier, and its distance is minimal. -/
theorem C3_witness :
    (⟨⟨1, 3, ⟨1, 0, 0⟩⟩, (2 : ℚ)⟩ : StationWithDistance WaterLevelData ℚ) ∈
      [(⟨⟨1, 3, ⟨1, 0, 0⟩⟩, (2 : ℚ)⟩ : StationWithDistance WaterLevelData ℚ),
        ⟨⟨2, 5, ⟨2, 0, 0⟩⟩, 2⟩] ∧
    ∀ y ∈ [(⟨⟨1, 3, ⟨1, 0, 0⟩⟩, (2 : ℚ)⟩ : StationWithDistance WaterLevelData ℚ),
        ⟨⟨2, 5, ⟨2, 0, 0⟩⟩, 2⟩],
      (⟨⟨1, 3, ⟨1, 0, 0⟩⟩, (2 : ℚ)⟩ : StationWithDistance WaterLevelData ℚ).distance ≤
        y.distance :=
  (C3_nearest_selector
    [(⟨⟨1, 3, ⟨1, 0, 0⟩⟩, (2 : ℚ)⟩ : StationWithDistance WaterLevelData ℚ),
      ⟨⟨2, 5, ⟨2, 0, 0⟩⟩, 2⟩]).2.2.2 _ (by decide)

theorem byDistance_eq_nil {K : Type} [LinearOrder K] {α : Type}
    (l : List (StationWithDistance α K)) : byDistance l = [] ↔ l = [] := by
  constructor
  · intro h
    have hl := congrArg List.length h
    rw [byDistance, List.length_insertionSort] at hl
    exact List.length_eq_zero.mp hl
  · intro h
    subst h
    rfl

/-- C4 counterexample: two rain stations, both with rain_24h = 50, station
id 1 at distance 5 appearing before station id 2 at distance 2 in the
post-radius-filter order.  The claim's rain tie-break (earlier post-filter
element wins) predicts station 1, but worstRain returns station 2: the rain
sort runs on the copy of rainInRadius that was already sorted by distance
in place, so rainfall ties are effectively broken by ascending distance. -/
theorem C4_counterexample :
    rainInRadius (K := ℚ) (fun r => if r.id = 1 then 5 else 2) 10
        [⟨1, 50, ⟨1, 0, 0⟩⟩, ⟨2, 50, ⟨2, 0, 0⟩⟩]
      = [⟨⟨1, 50, ⟨1, 0, 0⟩⟩, 5⟩, ⟨⟨2, 50, ⟨2, 0, 0⟩⟩, 2⟩]
    ∧ worstRain (K := ℚ) (fun r => if r.id = 1 then 5 else 2) 10
        [⟨1, 50, ⟨1, 0, 0⟩⟩, ⟨2, 50, ⟨2, 0, 0⟩⟩]
      = some ⟨⟨2, 50, ⟨2, 0, 0⟩⟩, 2⟩
    ∧ worstRain (K := ℚ) (fun r => if r.id = 1 then 5 else 2) 10
        [⟨1, 50, ⟨1, 0, 0⟩⟩, ⟨2, 50, ⟨2, 0, 0⟩⟩]
      ≠ some ⟨⟨1, 50, ⟨1, 0, 0⟩⟩, 5⟩ := by decide

/-- C4 amended: on every non-empty input the worst-case water selector
returns a station of maximum severity, breaking severity ties by minimum
distance; the worst-case rain selector returns a station of maximum
rain_24h, breaking rainfall ties by minimum distance (not by post-filter
input order: the rain sort runs on the distance-sorted array, and only
equal-distance ties fall back to input order); both return none exactly on
the empty input. -/
theorem C4_worst_selectors {K : Type} [LinearOrder K]
    (lw : List (StationWithDistance WaterLevelData K))
    (lr : List (StationWithDistance RainData K)) :
    (∀ x, worstWaterSel lw = some x →
      x ∈ lw ∧ ∀ y ∈ lw,
        y.station.situation_level ≤ x.station.situation_level ∧
        (y.station.situation_level = x.station.situation_level →
          x.distance ≤ y.distance))
    ∧ (worstWaterSel lw = none ↔ lw = [])
    ∧ (∀ x, worstRainSel lr = some x →
      x ∈ lr ∧ ∀ y ∈ lr,
        y.station.rain_24h ≤ x.station.rain_24h ∧
        (y.station.rain_24h = x.station.rain_24h → x.distance ≤ y.distance))
    ∧ (worstRainSel lr = none ↔ lr = []) := by
  refine ⟨?_, ?_, ?_, ?_⟩
  · intro x hx
    rw [worstWaterSel_eq_firstBest] at hx
    refine ⟨(mem_byDistance lw x).mp (firstBest_mem waterRiskBtr hx), ?_⟩
    intro y hy
    have hy2 : y ∈ byDistance lw := (mem_byDistance lw y).mpr hy
    have hnb := firstBest_not_better waterRiskBtr waterRiskBtr_irrefl waterRiskBtr_asym
      waterRiskBtr_neg_trans hx y hy2
    unfold waterRiskBtr at hnb
    push_neg at hnb
    exact hnb
  · rw [worstWaterSel_eq_firstBest, firstBest_eq_none_iff]
    exact byDistance_eq_nil lw
  · intro x hx
    rw [worstRainSel_eq_firstBest] at hx
    refine ⟨(mem_byDistance lr x).mp (firstBest_mem rainRiskBtr hx), ?_⟩
    intro y hy
    have hy2 : y ∈ byDistance lr := (mem_byDistance lr y).mpr hy
    have hmax := firstBest_not_better rainRiskBtr rainRiskBtr_irrefl rainRiskBtr_asym
      rainRiskBtr_neg_trans hx y hy2
    refine ⟨not_lt.mp hmax, ?_⟩
    intro he
    obtain ⟨m₁, m₂, hsplit, hbeat⟩ := firstBest_split rainRiskBtr hx
    have hsorted := byDistance_sorted lr
    rw [hsplit] at hsorted hy2
    rcases List.mem_append.mp hy2 with hy1 | hy12
    · obtain ⟨z, hz, hzy⟩ := hbeat y hy1
      have hzmax := firstBest_not_better rainRiskBtr rainRiskBtr_irrefl rainRiskBtr_asym
        rainRiskBtr_neg_trans hx z hz
      have hlt : x.station.rain_24h < x.station.rain_24h :=
        lt_of_lt_of_le (he ▸ hzy) (not_lt.mp hzmax)
      exact absurd hlt (lt_irrefl _)
    · rcases List.mem_cons.mp hy12 with rfl | hy2m
      · exact le_refl _
      · have hp := (List.pairwise_append.mp hsorted).2.1
        exact (List.pairwise_cons.mp hp).1 y hy2m
  · rw [worstRainSel_eq_firstBest, firstBest_eq_none_iff]
    exact byDistance_eq_nil lr

/-- C4 witness: the amended rain conjunct applied to a concrete tie. -/
theorem C4_witness :
    (⟨⟨2, 50, ⟨2, 0, 0⟩⟩, (2 : ℚ)⟩ : StationWithDistance RainData ℚ) ∈
      [(⟨⟨1, 50, ⟨1, 0, 0⟩⟩, (5 : ℚ)⟩ : StationWithDistance RainData ℚ),
        ⟨⟨2, 50, ⟨2, 0, 0⟩⟩, 2⟩]
    ∧ ∀ y ∈ [(⟨⟨1, 50, ⟨1, 0, 0⟩⟩, (5 : ℚ)⟩ : StationWithDistance RainData ℚ),
        ⟨⟨2, 50, ⟨2, 0, 0⟩⟩, 2⟩],
      y.station.rain_24h ≤
          (⟨⟨2, 50, ⟨2, 0, 0⟩⟩, (2 : ℚ)⟩ : StationWithDistance RainData ℚ).station.rain_24h ∧
        (y.station.rain_24h =
            (⟨⟨2, 50, ⟨2, 0, 0⟩⟩, (2 : ℚ)⟩ :
              StationWithDistance RainData ℚ).station.rain_24h →
          (⟨⟨2, 50, ⟨2, 0, 0⟩⟩, (2 : ℚ)⟩ :
              StationWithDistance RainData ℚ).distance ≤ y.distance) :=
  (C4_worst_selectors []
    [(⟨⟨1, 50, ⟨1, 0, 0⟩⟩, (5 : ℚ)⟩ : StationWithDistance RainData ℚ),
      ⟨⟨2, 50, ⟨2, 0, 0⟩⟩, 2⟩]).2.2.1 _ (by decide)

/-- C5: each divergence flag holds exactly when both selector outputs are
present, the worst station's id differs from the nearest station's id, the
worst station's danger metric is above the kind-specific warning floor
(situation_level >= 4 for water, rain_24h > 35 for rain), and that metric
strictly exceeds the corresponding metric of the nearest station. -/
theorem C5_divergence_flags {K : Type} [LinearOrder K]
    (ww nw : Option (StationWithDistance WaterLevelData K))
    (wr nr : Option (StationWithDistance RainData K)) :
    (showWaterWarning ww nw ↔
      ∃ w n, ww = some w ∧ nw = some n ∧
        w.station.id ≠ n.station.id ∧
        4 ≤ w.station.situation_level ∧
        n.station.situation_level < w.station.situation_level)
    ∧ (showRainWarning wr nr ↔
      ∃ w n, wr = some w ∧ nr = some n ∧
        w.station.id ≠ n.station.id ∧
        35 < w.station.rain_24h ∧
        n.station.rain_24h < w.station.rain_24h) := by
  constructor
  · cases ww with
    | none => simp [showWaterWarning]
    | some w =>
      cases nw with
      | none => simp [showWaterWarning]
      | some n =>
        simp only [showWaterWarning, Option.some.injEq]
        constructor
        · rintro ⟨h1, h2, h3⟩
          exact ⟨w, n, rfl, rfl, h1, h3, h2⟩
        · rintro ⟨w2, n2, rfl, rfl, h1, h2, h3⟩
          exact ⟨h1, h3, h2⟩
  · cases wr with
    | none => simp [showRainWarning]
    | some w =>
      cases nr with
      | none => simp [showRainWarning]
      | some n =>
        simp only [showRainWarning, Option.some.injEq]
        constructor
        · rintro ⟨h1, h2, h3⟩
          exact ⟨w, n, rfl, rfl, h1, h2, h3⟩
        · rintro ⟨w2, n2, rfl, rfl, h1, h2, h3⟩
          exact ⟨h1, h2, h3⟩

/-- C6: whenever a selector of the analysis pipeline returns a station, that
station belongs to the radius-filtered set and its attached distance is at
most the radius. -/
theorem C6_selectors_in_filtered {K : Type} [LinearOrder K]
    (dW : WaterLevelData → K) (dR : RainData → K) (radius : K)
    (ws : List WaterLevelData) (rs : List RainData) :
    (∀ x, nearestWater dW radius ws = some x →
      x ∈ waterInRadius dW radius ws ∧ x.distance ≤ radius)
    ∧ (∀ x, worstWater dW radius ws = some x →
      x ∈ waterInRadius dW radius ws ∧ x.distance ≤ radius)
    ∧ (∀ x, nearestRain dR radius rs = some x →
      x ∈ rainInRadius dR radius rs ∧ x.distance ≤ radius)
    ∧ (∀ x, worstRain dR radius rs = some x →
      x ∈ rainInRadius dR radius rs ∧ x.distance ≤ radius) := by
  refine ⟨?_, ?_, ?_, ?_⟩
  · intro x hx
    unfold nearestWater at hx
    rw [nearestSel_eq_firstBest] at hx
    have hm := firstBest_mem distBtr hx
    exact ⟨hm, ((mem_inRadius dW radius ws x).mp hm).2.2⟩
  · intro x hx
    unfold worstWater at hx
    rw [worstWaterSel_eq_firstBest] at hx
    have hm := (mem_byDistance _ x).mp (firstBest_mem waterRiskBtr hx)
    exact ⟨hm, ((mem_inRadius dW radius ws x).mp hm).2.2⟩
  · intro x hx
    unfold nearestRain at hx
    rw [nearestSel_eq_firstBest] at hx
    have hm := firstBest_mem distBtr hx
    exact ⟨hm, ((mem_inRadius dR radius rs x).mp hm).2.2⟩
  · intro x hx
    unfold worstRain at hx
    rw [worstRainSel_eq_firstBest] at hx
    have hm := (mem_byDistance _ x).mp (firstBest_mem rainRiskBtr hx)
    exact ⟨hm, ((mem_inRadius dR radius rs x).mp hm).2.2⟩

/-- C6 witness: one concrete water station within radius. -/
theorem C6_witness :
    (⟨⟨1, 3, ⟨1, 0, 0⟩⟩, (4 : ℚ)⟩ : StationWithDistance WaterLevelData ℚ) ∈
      waterInRadius (fun _ : WaterLevelData => (4 : ℚ)) 10 [⟨1, 3, ⟨1, 0, 0⟩⟩]
    ∧ (⟨⟨1, 3, ⟨1, 0, 0⟩⟩, (4 : ℚ)⟩ :
        StationWithDistance WaterLevelData ℚ).distance ≤ 10 :=
  (C6_selectors_in_filtered (fun _ : WaterLevelData => (4 : ℚ))
    (fun _ : RainData => (4 : ℚ)) 10 [⟨1, 3, ⟨1, 0, 0⟩⟩] []).1 _ (by decide)

/-- C1: the risk classification is the strict priority cascade of
RiskAnalysisCard, characterized rule by rule over the selector outputs,
and (scenario D) over the full pipeline: whenever no water station lies
within the radius, the category is INSUFFICIENT_DATA even if a rain
station with rain_24h = 95 lies within the radius. -/
theorem C1_risk_cascade {K : Type} [LinearOrder K] :
    (∀ (nw ww : Option (StationWithDistance WaterLevelData K))
       (wr : Option (StationWithDistance RainData K)),
      (nw = none → classifyRisk nw ww wr = RiskCategory.INSUFFICIENT_DATA)
      ∧ (classifyRisk nw ww wr = RiskCategory.INSUFFICIENT_DATA → nw = none)
      ∧ (∀ w, nw ≠ none → ww = some w → w.station.situation_level = 5 →
          classifyRisk nw ww wr = RiskCategory.HIGH_WATER)
      ∧ (∀ w, nw ≠ none → ww = some w → w.station.situation_level ≠ 5 →
          w.station.situation_level = 4 → classifyRisk nw ww wr = RiskCategory.WATCH)
      ∧ (∀ r, nw ≠ none →
          (∀ w, ww = some w →
            w.station.situation_level ≠ 5 ∧ w.station.situation_level ≠ 4) →
          wr = some r → 90 ≤ r.station.rain_24h →
          classifyRisk nw ww wr = RiskCategory.HIGH_RAIN_FLASH_FLOOD)
      ∧ (∀ r, nw ≠ none →
          (∀ w, ww = some w →
            w.station.situation_level ≠ 5 ∧ w.station.situation_level ≠ 4) →
          wr = some r → r.station.rain_24h < 90 → 35 ≤ r.station.rain_24h →
          classifyRisk nw ww wr = RiskCategory.HEAVY_RAIN)
      ∧ (nw ≠ none →
          (∀ w, ww = some w →
            w.station.situation_level ≠ 5 ∧ w.station.situation_level ≠ 4) →
          (∀ r, wr = some r → r.station.rain_24h < 35) →
          classifyRisk nw ww wr = RiskCategory.LOW))
    ∧ (∀ (dW : WaterLevelData → K) (dR : RainData → K) (radius : K)
        (ws : List WaterLevelData) (rs : List RainData),
        (∀ s ∈ ws, ¬ dW s ≤ radius) →
        (∃ r ∈ rs, dR r ≤ radius ∧ r.rain_24h = 95) →
        overallRisk dW dR radius ws rs = RiskCategory.INSUFFICIENT_DATA) := by
  constructor
  · intro nw ww wr
    refine ⟨?_, ?_, ?_, ?_, ?_, ?_, ?_⟩
    · intro h
      rw [h]
      rfl
    · cases nw with
      | none => exact fun _ => rfl
      | some n =>
        intro h
        exfalso
        unfold classifyRisk at h
        split_ifs at h <;> exact absurd h (by decide)
    · intro w hnw hww h5
      cases nw with
      | none => exact absurd rfl hnw
      | some n => simp [classifyRisk, hww, criticalWaterLevel, h5]
    · intro w hnw hww h5 h4
      cases nw with
      | none => exact absurd rfl hnw
      | some n => simp [classifyRisk, hww, criticalWaterLevel, h5, h4]
    · intro r hnw hw hwr h90
      cases nw with
      | none => exact absurd rfl hnw
      | some n =>
        have hc5 : criticalWaterLevel ww ≠ 5 := by
          cases ww with
          | none => simp [criticalWaterLevel]
          | some w => simpa [criticalWaterLevel] using (hw w rfl).1
        have hc4 : criticalWaterLevel ww ≠ 4 := by
          cases ww with
          | none => simp [criticalWaterLevel]
          | some w => simpa [criticalWaterLevel] using (hw w rfl).2
        simp [classifyRisk, hc5, hc4, hwr, heavyRainAmount, h90]
    · intro r hnw hw hwr h90 h35
      cases nw with
      | none => exact absurd rfl hnw
      | some n =>
        have hc5 : criticalWaterLevel ww ≠ 5 := by
          cases ww with
          | none => simp [criticalWaterLevel]
          | some w => simpa [criticalWaterLevel] using (hw w rfl).1
        have hc4 : criticalWaterLevel ww ≠ 4 := by
          cases ww with
          | none => simp [criticalWaterLevel]
          | some w => simpa [criticalWaterLevel] using (hw w rfl).2
        have h90n : ¬ (90 : ℚ) ≤ heavyRainAmount wr := by
          rw [hwr]
          simpa [heavyRainAmount] using not_le.mpr h90
        simp [classifyRisk, hc5, hc4, hwr, heavyRainAmount, h90n, h35, h90]
    · intro hnw hw hr
      cases nw with
      | none => exact absurd rfl hnw
      | some n =>
        have hc5 : criticalWaterLevel ww ≠ 5 := by
          cases ww with
          | none => simp [criticalWaterLevel]
          | some w => simpa [criticalWaterLevel] using (hw w rfl).1
        have hc4 : criticalWaterLevel ww ≠ 4 := by
          cases ww with
          | none => simp [criticalWaterLevel]
          | some w => simpa [criticalWaterLevel] using (hw w rfl).2
        have h35n : ¬ (35 : ℚ) ≤ heavyRainAmount wr := by
          cases wr with
          | none => simp [heavyRainAmount]
          | some r => simpa [heavyRainAmount] using not_le.mpr (hr r rfl)
        have h90n : ¬ (90 : ℚ) ≤ heavyRainAmount wr := by
          intro hcon
          exact h35n (le_trans (by norm_num) hcon)
        simp [classifyRisk, hc5, hc4, h90n, h35n]
  · intro dW dR radius ws rs hnowater _
    have hWnil : waterInRadius dW radius ws = [] := by
      unfold waterInRadius inRadius
      rw [List.filter_eq_nil_iff]
      rintro x hx
      obtain ⟨s, hs, rfl⟩ := List.mem_map.mp hx
      simpa using hnowater s hs
    have hnone : nearestWater dW radius ws = none := by
      unfold nearestWater
      rw [hWnil]
      rfl
    unfold overallRisk
    rw [hnone]
    rfl

/-- C1 witness: scenario D at a concrete input; the only water station is
outside the radius, a rain station with rain_24h = 95 is inside. -/
theorem C1_witness :
    overallRisk (K := ℚ) (fun _ => 100) (fun _ => 1) 10 [⟨1, 3, ⟨1, 0, 0⟩⟩]
      [⟨7, 95, ⟨7, 0, 0⟩⟩] = RiskCategory.INSUFFICIENT_DATA :=
  (C1_risk_cascade (K := ℚ)).2 _ _ _ _ _ (by decide)
    ⟨⟨7, 95, ⟨7, 0, 0⟩⟩, by decide, by decide, by decide⟩

/-- Distance function of the app for a reference pin at (9, 99), composed
with the real-valued haversine (used by the C7 analysis). -/
noncomputable def cexDW : WaterLevelData → ℝ := fun s =>
  calculateDistance 9 99 (s.station.tele_station_lat : ℝ) (s.station.tele_station_long : ℝ)

/-- Rain counterpart of cexDW. -/
noncomputable def cexDR : RainData → ℝ := fun r =>
  calculateDistance 9 99 (r.station.tele_station_lat : ℝ) (r.station.tele_station_long : ℝ)

/-- A water station (situation_level 3) located exactly at the reference
point (9, 99). -/
def cexW : WaterLevelData := ⟨1, 3, ⟨1, 9, 99⟩⟩

/-- C7 counterexample: radius 0 satisfies radius ≤ 0, yet with a water
station located exactly at the reference point the haversine distance is
exactly 0, the inclusive filter keeps the station, the filtered set is
non-empty, and the classification is LOW, not INSUFFICIENT_DATA. -/
theorem C7_counterexample :
    (0 : ℝ) ≤ 0
    ∧ waterInRadius cexDW 0 [cexW] ≠ []
    ∧ overallRisk cexDW cexDR 0 [cexW] [] = RiskCategory.LOW
    ∧ RiskCategory.LOW ≠ RiskCategory.INSUFFICIENT_DATA := by
  have hd0 : cexDW cexW = 0 := by
    show calculateDistance 9 99 ((9 : ℚ) : ℝ) ((99 : ℚ) : ℝ) = 0
    have h9 : ((9 : ℚ) : ℝ) = 9 := by norm_num
    have h99 : ((99 : ℚ) : ℝ) = 99 := by norm_num
    rw [h9, h99]
    exact calculateDistance_self 9 99
  have hfil : waterInRadius cexDW 0 [cexW] = [⟨cexW, 0⟩] := by
    unfold waterInRadius inRadius
    simp only [List.map_cons, List.map_nil]
    rw [hd0]
    simp only [List.filter_cons, List.filter_nil, decide_eq_true_eq]
    rw [if_pos (le_refl (0 : ℝ))]
  have hnw : nearestWater cexDW 0 [cexW] = some ⟨cexW, 0⟩ := by
    unfold nearestWater
    rw [hfil]
    rfl
  have hww : worstWater cexDW 0 [cexW] = some ⟨cexW, 0⟩ := by
    unfold worstWater
    rw [hfil]
    rfl
  have hwr : worstRain cexDR 0 ([] : List RainData) = none := rfl
  refine ⟨le_refl 0, ?_, ?_, by decide⟩
  · rw [hfil]
    exact List.cons_ne_nil _ _
  · unfold overallRisk
    rw [hnw, hww, hwr]
    rfl

/-- C7 amended: for every strictly negative radius (distances being
nonnegative, as the haversine distance is), the filtered sets are empty and
the classification is INSUFFICIENT_DATA, with no error; at radius exactly 0
a station at distance exactly 0 survives the inclusive filter (see the
counterexample). -/
theorem C7_negative_radius {K : Type} [LinearOrder K] [Zero K]
    (dW : WaterLevelData → K) (dR : RainData → K) (radius : K)
    (ws : List WaterLevelData) (rs : List RainData)
    (hrad : radius < 0)
    (hW : ∀ s : WaterLevelData, 0 ≤ dW s)
    (hR : ∀ r : RainData, 0 ≤ dR r) :
    waterInRadius dW radius ws = []
    ∧ rainInRadius dR radius rs = []
    ∧ overallRisk dW dR radius ws rs = RiskCategory.INSUFFICIENT_DATA := by
  have hWnil : waterInRadius dW radius ws = [] := by
    unfold waterInRadius inRadius
    rw [List.filter_eq_nil_iff]
    rintro x hx
    obtain ⟨s, _, rfl⟩ := List.mem_map.mp hx
    simp only [decide_eq_true_eq]
    intro hle
    exact absurd hrad (not_lt.mpr (le_trans (hW s) hle))
  have hRnil : rainInRadius dR radius rs = [] := by
    unfold rainInRadius inRadius
    rw [List.filter_eq_nil_iff]
    rintro x hx
    obtain ⟨r, _, rfl⟩ := List.mem_map.mp hx
    simp only [decide_eq_true_eq]
    intro hle
    exact absurd hrad (not_lt.mpr (le_trans (hR r) hle))
  have hnone : nearestWater dW radius ws = none := by
    unfold nearestWater
    rw [hWnil]
    rfl
  refine ⟨hWnil, hRnil, ?_⟩
  unfold overallRisk
  rw [hnone]
  rfl

/-- C7 witness: the amended statement at a concrete negative radius. -/
theorem C7_witness :
    waterInRadius (fun _ : WaterLevelData => (0 : ℚ)) (-1) [⟨1, 5, ⟨1, 0, 0⟩⟩] = []
    ∧ rainInRadius (fun _ : RainData => (0 : ℚ)) (-1) [⟨2, 40, ⟨2, 0, 0⟩⟩] = []
    ∧ overallRisk (fun _ : WaterLevelData => (0 : ℚ)) (fun _ : RainData => (0 : ℚ)) (-1)
        [⟨1, 5, ⟨1, 0, 0⟩⟩] [⟨2, 40, ⟨2, 0, 0⟩⟩] = RiskCategory.INSUFFICIENT_DATA :=
  C7_negative_radius _ _ _ _ _ (by decide) (fun _ => le_refl 0) (fun _ => le_refl 0)

/-- C8: the distance function evaluated at the failing antipodal input
(0.015, 0) versus (-0.015, 180), in the embedded exact-real model.  The
intermediate value a is exactly 1 there (it is sin^2 x + cos^2 x for
x = 0.015 degrees in radians), i.e. the computation sits exactly on the
boundary of the domain of sqrt(1 - a), and the exact distance is half the
Earth circumference, 6371 * pi.  The double-precision program has no clamp
on a: at this same input it computes a = 1.0000000000000002 (the two
addends round to 6.853891788614826e-08 and 0.9999999314610822), so
1 - a = -2.220446049250313e-16, Math.sqrt(1 - a) is NaN, and the returned
distance is NaN, contradicting the spec requirement that the function never
produce NaN for valid inputs.  In exact arithmetic a never leaves [0, 1]
for valid latitudes (havA_nonneg, havA_le_one): the failure is purely a
rounding artifact of the missing clamp, and this theorem locates the
boundary the rounded computation steps over. -/
theorem C8_antipodal_boundary :
    havA 0.015 0 (-0.015) 180 = 1
    ∧ Real.sqrt (1 - havA 0.015 0 (-0.015) 180) = 0
    ∧ calculateDistance 0.015 0 (-0.015) 180 = 6371 * Real.pi := by
  have hlat : ((-0.015 : ℝ) - 0.015) * (Real.pi / 180) / 2 =
      -(0.015 * (Real.pi / 180)) := by ring
  have hlon : ((180 : ℝ) - 0) * (Real.pi / 180) / 2 = Real.pi / 2 := by ring
  have hneg : (-0.015 : ℝ) * (Real.pi / 180) = -(0.015 * (Real.pi / 180)) := by ring
  have ha : havA 0.015 0 (-0.015) 180 = 1 := by
    unfold havA deg2rad
    rw [hlat, hlon, hneg, Real.sin_neg, Real.cos_neg, Real.sin_pi_div_two]
    linear_combination Real.sin_sq_add_cos_sq (0.015 * (Real.pi / 180))
  refine ⟨ha, ?_, ?_⟩
  · rw [ha]
    simp
  · unfold calculateDistance
    rw [ha]
    have h10 : Real.sqrt (1 - 1) = 0 := by simp
    have h11 : Real.sqrt 1 = 1 := Real.sqrt_one
    rw [h10, h11]
    have hat : atan2 1 0 = Real.pi / 2 := by
      unfold atan2
      rw [if_neg (lt_irrefl 0), if_neg (lt_irrefl 0), if_pos one_pos]
    rw [hat]
    ring

/-- C9: the exported findNearestStation and findNearestRainStation apply no
radius bound (for every distance function and every non-empty list, however
large the distances, they return a station of the list); on the empty list
they return (null, Infinity) with Infinity modeled by ⊤ of WithTop; and
they equal firstBest of the strictly-smaller-distance preference, so on
distance ties the earlier element of the list wins (the loop updates only
on strict less-than). -/
theorem C9_findNearest {K : Type} [LinearOrder K]
    (dW : WaterLevelData → K) (dR : RainData → K)
    (ws : List WaterLevelData) (rs : List RainData) :
    findNearestStation dW ([] : List WaterLevelData) = (none, ⊤)
    ∧ findNearestRainStation dR ([] : List RainData) = (none, ⊤)
    ∧ findNearestStation dW ws =
        (firstBest (fun y x : WaterLevelData => dW y < dW x) ws,
         (firstBest (fun y x : WaterLevelData => dW y < dW x) ws).elim ⊤
           fun s => (dW s : WithTop K))
    ∧ findNearestRainStation dR rs =
        (firstBest (fun y x : RainData => dR y < dR x) rs,
         (firstBest (fun y x : RainData => dR y < dR x) rs).elim ⊤
           fun r => (dR r : WithTop K))
    ∧ (ws ≠ [] → ∃ s, (findNearestStation dW ws).1 = some s ∧ s ∈ ws ∧
        ∀ t ∈ ws, dW s ≤ dW t)
    ∧ (rs ≠ [] → ∃ r, (findNearestRainStation dR rs).1 = some r ∧ r ∈ rs ∧
        ∀ t ∈ rs, dR r ≤ dR t) := by
  refine ⟨rfl, rfl, findNearest_eq dW ws, findNearest_eq dR rs, ?_, ?_⟩
  · intro hne
    cases hfb : firstBest (fun y x : WaterLevelData => dW y < dW x) ws with
    | none => exact absurd ((firstBest_eq_none_iff _ ws).mp hfb) hne
    | some s =>
      refine ⟨s, ?_, firstBest_mem _ hfb, ?_⟩
      · unfold findNearestStation
        rw [findNearest_eq dW ws, hfb]
      · intro t ht
        exact not_lt.mp (firstBest_not_better (fun y x : WaterLevelData => dW y < dW x)
          (fun a => lt_irrefl _) (fun a b h => lt_asymm h) (dLT_neg_trans dW) hfb t ht)
  · intro hne
    cases hfb : firstBest (fun y x : RainData => dR y < dR x) rs with
    | none => exact absurd ((firstBest_eq_none_iff _ rs).mp hfb) hne
    | some r =>
      refine ⟨r, ?_, firstBest_mem _ hfb, ?_⟩
      · unfold findNearestRainStation
        rw [findNearest_eq dR rs, hfb]
      · intro t ht
        exact not_lt.mp (firstBest_not_better (fun y x : RainData => dR y < dR x)
          (fun a => lt_irrefl _) (fun a b h => lt_asymm h) (dLT_neg_trans dR) hfb t ht)

/-- C9 witness: the non-empty conjunct at a one-station list. -/
theorem C9_witness :
    ∃ s, (findNearestStation (K := ℚ) (fun _ => 3) [⟨1, 3, ⟨1, 0, 0⟩⟩]).1 = some s ∧
      s ∈ [(⟨1, 3, ⟨1, 0, 0⟩⟩ : WaterLevelData)] ∧
      ∀ t ∈ [(⟨1, 3, ⟨1, 0, 0⟩⟩ : WaterLevelData)], (3 : ℚ) ≤ 3 :=
  (C9_findNearest (K := ℚ) (fun _ => 3) (fun _ => 3) [⟨1, 3, ⟨1, 0, 0⟩⟩]
    []).2.2.2.2.1 (by decide)

/-- C10: findNearbyRainStations returns at most 5 elements, each within the
radius, in ascending distance order, and every qualifying station it drops
is at least as far as every station it keeps (it keeps the 5 closest). -/
theorem C10_nearby_rain_cap {K : Type} [LinearOrder K]
    (d : RainData → K) (radiusKm : K) (stations : List RainData) :
    (findNearbyRainStations d radiusKm stations).length ≤ 5
    ∧ (∀ x ∈ findNearbyRainStations d radiusKm stations, x.distance ≤ radiusKm)
    ∧ List.Sorted distLE (findNearbyRainStations d radiusKm stations)
    ∧ (∀ x ∈ findNearbyRainStations d radiusKm stations,
        ∀ y ∈ (stations.map fun s => (⟨s, d s⟩ : StationWithDistance RainData K)).filter
            (fun x => x.distance ≤ radiusKm),
          y ∉ findNearbyRainStations d radiusKm stations → x.distance ≤ y.distance) := by
  have hdef : findNearbyRainStations d radiusKm stations =
      (List.insertionSort distLE
        ((stations.map fun s => (⟨s, d s⟩ : StationWithDistance RainData K)).filter
          (fun x => x.distance ≤ radiusKm))).take 5 := rfl
  refine ⟨?_, ?_, ?_, ?_⟩
  · rw [hdef, List.length_take]
    exact min_le_left _ _
  · intro x hx
    rw [hdef] at hx
    have hx2 := (List.mem_insertionSort distLE).mp (List.mem_of_mem_take hx)
    simpa using List.of_mem_filter hx2
  · rw [hdef]
    exact List.Pairwise.sublist (List.take_sublist 5 _)
      (List.sorted_insertionSort distLE _)
  · intro x hx y hy hyn
    rw [hdef] at hx hyn
    have hy2 := (List.mem_insertionSort distLE).mpr hy
    have hysplit : y ∈ (List.insertionSort distLE
        ((stations.map fun s => (⟨s, d s⟩ : StationWithDistance RainData K)).filter
          (fun x => x.distance ≤ radiusKm))).take 5 ++
        (List.insertionSort distLE
        ((stations.map fun s => (⟨s, d s⟩ : StationWithDistance RainData K)).filter
          (fun x => x.distance ≤ radiusKm))).drop 5 := by
      rw [List.take_append_drop]
      exact hy2
    rcases List.mem_append.mp hysplit with hyt | hyd
    · exact absurd hyt hyn
    · have hp : List.Pairwise distLE
          ((List.insertionSort distLE
            ((stations.map fun s => (⟨s, d s⟩ : StationWithDistance RainData K)).filter
              (fun x => x.distance ≤ radiusKm))).take 5 ++
           (List.insertionSort distLE
            ((stations.map fun s => (⟨s, d s⟩ : StationWithDistance RainData K)).filter
              (fun x => x.distance ≤ radiusKm))).drop 5) := by
        rw [List.take_append_drop]
        exact List.sorted_insertionSort distLE _
      exact (List.pairwise_append.mp hp).2.2 x hx y hyd

/-- C10 witness: the within-radius conjunct at a concrete call. -/
theorem C10_witness :
    (⟨⟨1, 20, ⟨1, 0, 0⟩⟩, (4 : ℚ)⟩ : StationWithDistance RainData ℚ).distance ≤ 50 :=
  (C10_nearby_rain_cap (fun _ : RainData => (4 : ℚ)) 50 [⟨1, 20, ⟨1, 0, 0⟩⟩]).2.1 _
    (by decide)
